import Mathlib

/-!
Shallow embedding of the CourseNest backend (src/server/server.js) and of the
collaborators it uses: the relational store (four tables accessed through
parameterized SQL), the external bcrypt library, and jsonwebtoken.  Each HTTP
handler becomes a pure function from the request data and the database state to
a result value (status code plus body) and, where the handler writes, a new
database state.  Handler-level console logging of request bodies is modelled
explicitly, since one claim is about what gets logged.
-/

namespace CourseNest

/-- Model of a bcrypt hash value.  The real library renders
`cost`, `salt` and the derived key as one string of the shape
`$2b$cost$saltdigest`; the model keeps the parsed components.  `digest` stands
for the Blowfish-derived key, modelled as an injective function of the salt and
the password; one-wayness of the real digest is a property of the external
library and is outside the model. -/
structure Hash where
  cost : Nat
  salt : String
  digest : String
deriving DecidableEq, Repr

namespace bcrypt

/-- Model of the bcrypt key derivation: an injective stand-in for the
salted Blowfish digest of the password. -/
def digestOf (salt password : String) : String :=
  salt ++ "|" ++ password

/-- Model of `bcrypt.hash(password, cost)`.  The library draws a random
`salt`; the model takes it as an explicit argument. -/
def hash (password : String) (cost : Nat) (salt : String) : Hash :=
  ⟨cost, salt, digestOf salt password⟩

/-- Model of `bcrypt.compare(password, stored)`: re-derives the digest from
the salt recorded in the stored hash and compares. -/
def compare (password : String) (stored : Hash) : Bool :=
  stored.digest == digestOf stored.salt password

end bcrypt

/-- A row of the `users` table.  The `password` column stores the bcrypt
hash (server.js line 92 inserts `hashedPassword` into it). -/
structure User where
  id : Nat
  name : String
  email : String
  password : Hash
deriving DecidableEq, Repr

/-- A row of the `courses` table; its non-key attributes are opaque to the
backend and collapsed into `title`. -/
structure Course where
  id : Nat
  title : String
deriving DecidableEq, Repr

/-- A row of the `videos` table. -/
structure Video where
  id : Nat
  course_id : Nat
  title : String
deriving DecidableEq, Repr

/-- A row of the `payments` table (the Entitlement store). -/
structure Payment where
  user_id : Nat
  course_id : Nat
  payment_method : String
deriving DecidableEq, Repr

/-- The relational store: the four tables the handlers touch. -/
structure DB where
  users : List User
  courses : List Course
  videos : List Video
  payments : List Payment
deriving DecidableEq, Repr

/-- `SELECT * FROM users WHERE email = $1` (server.js lines 85 and 115). -/
def usersWhereEmail (db : DB) (email : String) : List User :=
  db.users.filter (fun u => u.email = email)

/-- `SELECT * FROM payments WHERE user_id = $1 AND course_id = $2`
(server.js lines 157-160, and the `SELECT 1` variant at 211-214). -/
def paymentsWhere (db : DB) (uid cid : Nat) : List Payment :=
  db.payments.filter (fun p => p.user_id = uid ∧ p.course_id = cid)

/-- `SELECT * FROM videos WHERE course_id = $1` (server.js line 219). -/
def videosWhereCourse (db : DB) (cid : Nat) : List Video :=
  db.videos.filter (fun v => v.course_id = cid)

/-- Model of the serial primary key: the id the store assigns to the next
inserted `users` row. -/
def nextUserId (db : DB) : Nat :=
  db.users.foldr (fun u m => max u.id m) 0 + 1

/-- Model of the JSON web token issued by login: the signed payload
`\x7b id, email \x7d` together with the `iat`/`exp` timestamps (seconds) that
`jwt.sign` adds, and the secret the signature was produced with (an HMAC
signature checks out exactly when the verifying secret equals the signing
one, which is what `signedWith` captures). -/
structure Token where
  id : Nat
  email : String
  iat : Nat
  exp : Nat
  signedWith : String
deriving DecidableEq, Repr

/-- `jwt.sign({ id, email }, secret, { expiresIn: "1h" })` at time `now`
(server.js lines 133-135): `exp` is one hour after issuance. -/
def Token.sign (id : Nat) (email : String) (secret : String) (now : Nat) : Token :=
  ⟨id, email, now, now + 3600, secret⟩

/-- The runtime environment: `process.env.JWT_SECRET`, `none` when unset. -/
structure Env where
  jwtSecret : Option String
deriving DecidableEq, Repr

/-- JS truthiness of an environment string: an unset variable and the empty
string are both falsy (`!process.env.JWT_SECRET`, server.js line 128). -/
def jsTruthy : Option String → Option String
  | none => none
  | some v => if v = "" then none else some v

/-- One `console.log` line emitted by a handler, restricted to the entries
that echo request bodies (server.js lines 78 and 108): those are the lines a
claim is about.  The logged body is kept field by field. -/
inductive LogEntry where
  | registerBody (name email password : String)
  | loginBody (email password : String)
deriving DecidableEq, Repr

/-- Whether a log entry contains the given plaintext password. -/
def LogEntry.mentionsPlaintext (e : LogEntry) (pw : String) : Bool :=
  match e with
  | .registerBody _ _ p => p == pw
  | .loginBody _ p => p == pw

/-- Result of `POST /register`. -/
inductive RegisterResult where
  | error (status : Nat) (message : String)
  | created (message : String) (user : User)
deriving DecidableEq, Repr

/-- The HTTP status `POST /register` answers with: `res.status(...)` on the
error paths, `res.status(201)` on success. -/
def RegisterResult.status : RegisterResult → Nat
  | .error s _ => s
  | .created _ _ => 201

/-- `POST /register` (server.js lines 76-101).  A body field that is absent
and one that is the empty string are both JS-falsy, so both are modelled as
`""`.  `salt` is the random salt `bcrypt.hash` draws.  Returns the response,
the new store state, and the log lines the handler printed. -/
def register (db : DB) (name email password salt : String) :
    RegisterResult × DB × List LogEntry :=
  let log := [LogEntry.registerBody name email password]
  if name = "" ∨ email = "" ∨ password = "" then
    (.error 400 "All fields are required", db, log)
  else if (usersWhereEmail db email).length > 0 then
    (.error 400 "User already exists", db, log)
  else
    let hashedPassword := bcrypt.hash password 10 salt
    let user : User := ⟨nextUserId db, name, email, hashedPassword⟩
    (.created "User registered successfully" user,
      { db with users := db.users ++ [user] }, log)

/-- Result of `POST /login`. -/
inductive LoginResult where
  | error (status : Nat) (message : String)
  | success (message : String) (token : Token) (user : User)
deriving DecidableEq, Repr

/-- The HTTP status `POST /login` answers with; `res.json` without
`res.status` is a 200. -/
def LoginResult.status : LoginResult → Nat
  | .error s _ => s
  | .success _ _ _ => 200

/-- `POST /login` (server.js lines 106-142) at time `now`.  The handler logs
the request body, validates presence, looks the user up by email, compares
the password against the stored hash, checks the signing secret only after
the comparison succeeded, and finally signs the token.  `user` in the success
response is `result.rows[0]`, the full stored row. -/
def login (env : Env) (now : Nat) (db : DB) (email password : String) :
    LoginResult × List LogEntry :=
  let log := [LogEntry.loginBody email password]
  if email = "" ∨ password = "" then
    (.error 400 "Both fields are required", log)
  else
    match (usersWhereEmail db email).head? with
    | none => (.error 401 "Invalid email or password", log)
    | some user =>
      if bcrypt.compare password user.password = false then
        (.error 401 "Invalid email or password", log)
      else
        match jsTruthy env.jwtSecret with
        | none => (.error 500 "Server misconfiguration", log)
        | some secret =>
          (.success "Login successful" (Token.sign user.id user.email secret now) user, log)

/-- Result of `POST /payment`. -/
inductive PaymentResult where
  | error (status : Nat) (message : String)
  | ok (message : String) (courseId : Nat)
deriving DecidableEq, Repr

/-- The HTTP status `POST /payment` answers with. -/
def PaymentResult.status : PaymentResult → Nat
  | .error s _ => s
  | .ok _ _ => 200

/-- `POST /payment` (server.js lines 147-177).  `uid` is `req.user.id` as
attached by the token middleware; the JS guard `!req.user?.id` is falsy
exactly when the id is 0, modelled by the `uid = 0` test.  Returns the
response and the new store state. -/
def payment (db : DB) (uid cid : Nat) (paymentMethod : String) :
    PaymentResult × DB :=
  if uid = 0 then (.error 403 "Unauthorized", db)
  else if (paymentsWhere db uid cid).length > 0 then
    (.error 409 "You have already purchased this course.", db)
  else
    (.ok "Payment successful" cid,
      { db with payments := db.payments ++ [⟨uid, cid, paymentMethod⟩] })

/-- `GET /my-courses` (server.js lines 182-198): the SQL join
`SELECT c.* FROM courses c JOIN payments p ON p.course_id = c.id WHERE
p.user_id = $1`, modelled as the join's list of result rows. -/
def myCourses (db : DB) (uid : Nat) : List Course :=
  db.courses.flatMap (fun c =>
    db.payments.filterMap (fun p =>
      if p.course_id = c.id ∧ p.user_id = uid then some c else none))

/-- Result of `GET /course/:id/videos`. -/
inductive VideosResult where
  | error (status : Nat) (message : String)
  | ok (videos : List Video)
deriving DecidableEq, Repr

/-- The HTTP status `GET /course/:id/videos` answers with. -/
def VideosResult.status : VideosResult → Nat
  | .error s _ => s
  | .ok _ => 200

/-- `GET /course/:id/videos` (server.js lines 203-225).  Gated: a 403 when
no `payments` row matches `(req.user.id, courseId)`, otherwise the course's
video rows. -/
def courseVideos (db : DB) (uid cid : Nat) : VideosResult :=
  if uid = 0 then .error 403 "Unauthorized"
  else if (paymentsWhere db uid cid).length = 0 then
    .error 403 "Access denied. You have not purchased this course."
  else
    .ok (videosWhereCourse db cid)

/-- Result of the token middleware. -/
inductive AuthResult where
  | missingToken
  | invalidToken
  | expiredToken
  | ok (id : Nat) (email : String)
deriving DecidableEq, Repr

/-- Modelled from the spec: the Access Middleware (`verifyToken`, imported
from src/server/middleware/auth.js, a file absent from the repository
snapshot).  Per spec 4.2 it extracts the bearer token, fails
`MissingTokenError` when absent, verifies signature and expiry against the
process-wide secret — `InvalidTokenError` on signature mismatch,
`ExpiredTokenError` on expiry (`jwt.verify` treats a token as expired once
the current time reaches `exp`) — and otherwise yields the decoded
`\x7b id, email \x7d` identity. -/
def verifyToken (tok : Option Token) (secret : String) (now : Nat) : AuthResult :=
  match tok with
  | none => .missingToken
  | some t =>
    if t.signedWith ≠ secret then .invalidToken
    else if t.exp ≤ now then .expiredToken
    else .ok t.id t.email

/-! ## Sample data used by the witnesses -/

/-- The hash Register stores for the sample password. -/
def annHash : Hash := bcrypt.hash "pw123" 10 "salty"

/-- A stored sample user. -/
def ann : User := ⟨1, "Ann", "ann@x.com", annHash⟩

/-- A sample store: one user, two courses, three videos, no payments. -/
def sampleDB : DB :=
  ⟨[ann], [⟨5, "Intro"⟩, ⟨6, "Other"⟩],
    [⟨1, 5, "v1"⟩, ⟨2, 6, "v2"⟩, ⟨3, 5, "v3"⟩], []⟩

/-! ## Claims -/

/-- C1: for every authenticated identity and courseId, `GET /course/:id/videos`
fails with 403 ("Access denied") while no payments row exists for
(identity.id, courseId); after a successful `POST /payment` by that identity
for that course, the same call succeeds (200) and returns exactly the videos
whose `course_id` equals the courseId. -/
theorem listCourseVideos_gated_by_payment (db : DB) (uid cid : Nat) (pm : String)
    (hid : uid ≠ 0) (h : paymentsWhere db uid cid = []) :
    courseVideos db uid cid =
      .error 403 "Access denied. You have not purchased this course." ∧
    (payment db uid cid pm).1 = .ok "Payment successful" cid ∧
    (payment db uid cid pm).1.status = 200 ∧
    courseVideos (payment db uid cid pm).2 uid cid =
      .ok (db.videos.filter (fun v => v.course_id = cid)) := by
  have h0 : (paymentsWhere db uid cid).length = 0 := by rw [h]; rfl
  have hpay : payment db uid cid pm =
      (.ok "Payment successful" cid,
        { db with payments := db.payments ++ [⟨uid, cid, pm⟩] }) := by
    simp [payment, hid, h0]
  refine ⟨by simp [courseVideos, hid, h0], by rw [hpay], by rw [hpay]; rfl, ?_⟩
  rw [hpay]
  simp only [courseVideos, paymentsWhere, videosWhereCourse]
  simp only [paymentsWhere] at h
  simp [hid, List.filter_append, h]

/-- C1 witness: the gating theorem instantiated at the sample store, user 1
and course 5. -/
theorem listCourseVideos_gated_by_payment_witness :
    (1 : Nat) ≠ 0 ∧ paymentsWhere sampleDB 1 5 = [] ∧
    (courseVideos sampleDB 1 5 =
        .error 403 "Access denied. You have not purchased this course." ∧
      (payment sampleDB 1 5 "card").1 = .ok "Payment successful" 5 ∧
      (payment sampleDB 1 5 "card").1.status = 200 ∧
      courseVideos (payment sampleDB 1 5 "card").2 1 5 =
        .ok (sampleDB.videos.filter (fun v => v.course_id = 5))) :=
  ⟨by decide, by decide,
    listCourseVideos_gated_by_payment sampleDB 1 5 "card" (by decide) (by decide)⟩

/-- Helper: appending the freshly inserted payments row to a table whose
lookup for the pair was empty makes that lookup return exactly the new row. -/
theorem filter_pair_append (l : List Payment) (uid cid : Nat) (pm : String)
    (hl : l.filter (fun p => p.user_id = uid ∧ p.course_id = cid) = []) :
    (l ++ [({ user_id := uid, course_id := cid, payment_method := pm } : Payment)]).filter
        (fun p => p.user_id = uid ∧ p.course_id = cid) =
      [{ user_id := uid, course_id := cid, payment_method := pm }] := by
  rw [List.filter_append, hl]
  simp

/-- C3: executing `POST /payment` twice sequentially for the same
(user, course) pair succeeds the first time (200) and fails with 409
("You have already purchased this course.") the second time; the second call
leaves the store unchanged (nothing is overwritten), and exactly one payments
row for the pair exists afterward. -/
theorem recordPayment_once (db : DB) (uid cid : Nat) (pm pm2 : String)
    (hid : uid ≠ 0) (h : paymentsWhere db uid cid = []) :
    (payment db uid cid pm).1 = .ok "Payment successful" cid ∧
    (payment (payment db uid cid pm).2 uid cid pm2).1 =
      .error 409 "You have already purchased this course." ∧
    (payment (payment db uid cid pm).2 uid cid pm2).1.status = 409 ∧
    (payment (payment db uid cid pm).2 uid cid pm2).2 = (payment db uid cid pm).2 ∧
    (paymentsWhere (payment (payment db uid cid pm).2 uid cid pm2).2 uid cid).length = 1 := by
  have h0 : (paymentsWhere db uid cid).length = 0 := by rw [h]; rfl
  have hpay : payment db uid cid pm =
      (.ok "Payment successful" cid,
        { db with payments := db.payments ++ [⟨uid, cid, pm⟩] }) := by
    simp [payment, hid, h0]
  have hafter : paymentsWhere (payment db uid cid pm).2 uid cid =
      [⟨uid, cid, pm⟩] := by
    rw [hpay]
    exact filter_pair_append db.payments uid cid pm h
  have hlen : (paymentsWhere (payment db uid cid pm).2 uid cid).length > 0 := by
    rw [hafter]; simp
  have hgen : ∀ db2 : DB, (paymentsWhere db2 uid cid).length > 0 →
      payment db2 uid cid pm2 =
        (.error 409 "You have already purchased this course.", db2) := by
    intro db2 hl
    simp [payment, hid, hl]
  have hdup := hgen (payment db uid cid pm).2 hlen
  refine ⟨by rw [hpay], by rw [hdup], by rw [hdup]; rfl, by rw [hdup], ?_⟩
  rw [hdup, hafter]
  rfl

/-- C3 witness: the double-payment theorem instantiated at the sample store,
user 1 and course 5. -/
theorem recordPayment_once_witness :
    (1 : Nat) ≠ 0 ∧ paymentsWhere sampleDB 1 5 = [] ∧
    ((payment sampleDB 1 5 "card").1 = .ok "Payment successful" 5 ∧
      (payment (payment sampleDB 1 5 "card").2 1 5 "upi").1 =
        .error 409 "You have already purchased this course." ∧
      (payment (payment sampleDB 1 5 "card").2 1 5 "upi").1.status = 409 ∧
      (payment (payment sampleDB 1 5 "card").2 1 5 "upi").2 =
        (payment sampleDB 1 5 "card").2 ∧
      (paymentsWhere (payment (payment sampleDB 1 5 "card").2 1 5 "upi").2 1 5).length = 1) :=
  ⟨by decide, by decide,
    recordPayment_once sampleDB 1 5 "card" "upi" (by decide) (by decide)⟩

/-- C7: `GET /my-courses` returns exactly the courses for which a payments
row (identity.id, course.id) exists: a course row is in the join's result
list precisely when it is in `courses` and some payments row of the caller
references it. -/
theorem myCourses_exactly_entitled (db : DB) (uid : Nat) (c : Course) :
    c ∈ myCourses db uid ↔
      c ∈ db.courses ∧ ∃ p ∈ db.payments, p.user_id = uid ∧ p.course_id = c.id := by
  simp only [myCourses, List.mem_flatMap, List.mem_filterMap]
  constructor
  · rintro ⟨c', hc', p, hp, heq⟩
    by_cases hcond : p.course_id = c'.id ∧ p.user_id = uid
    · rw [if_pos hcond] at heq
      cases heq
      exact ⟨hc', p, hp, hcond.2, hcond.1⟩
    · rw [if_neg hcond] at heq
      cases heq
  · rintro ⟨hc, p, hp, huid, hcid⟩
    exact ⟨c, hc, p, hp, by rw [if_pos ⟨hcid, huid⟩]⟩

/-- Helper: appending a freshly inserted user whose email matches the lookup
makes the email lookup return exactly the new row, when it was empty before. -/
theorem filter_email_append (l : List User) (email : String) (u : User)
    (hu : u.email = email) (hl : l.filter (fun x => x.email = email) = []) :
    (l ++ [u]).filter (fun x => x.email = email) = [u] := by
  rw [List.filter_append, hl]
  simp [hu]

/-- C2: for every (name, email, password) with all three fields present and
the email fresh in the users table, `POST /register` succeeds with 201, and a
subsequent `POST /login` with the same email and password against the updated
store succeeds with 200 and a token: the stored bcrypt hash verifies against
the original password. -/
theorem register_then_login (env : Env) (now : Nat) (db : DB)
    (name email password salt secret : String)
    (hn : name ≠ "") (he : email ≠ "") (hp : password ≠ "")
    (hfresh : usersWhereEmail db email = [])
    (hsecret : jsTruthy env.jwtSecret = some secret) :
    (register db name email password salt).1 =
      .created "User registered successfully"
        ⟨nextUserId db, name, email, bcrypt.hash password 10 salt⟩ ∧
    (register db name email password salt).1.status = 201 ∧
    (login env now (register db name email password salt).2.1 email password).1 =
      .success "Login successful" (Token.sign (nextUserId db) email secret now)
        ⟨nextUserId db, name, email, bcrypt.hash password 10 salt⟩ ∧
    (login env now (register db name email password salt).2.1 email password).1.status = 200 := by
  have hreg : register db name email password salt =
      (.created "User registered successfully"
          ⟨nextUserId db, name, email, bcrypt.hash password 10 salt⟩,
        { db with users :=
            db.users ++ [⟨nextUserId db, name, email, bcrypt.hash password 10 salt⟩] },
        [LogEntry.registerBody name email password]) := by
    simp [register, hn, he, hp, hfresh]
  have husers : usersWhereEmail (register db name email password salt).2.1 email =
      [⟨nextUserId db, name, email, bcrypt.hash password 10 salt⟩] := by
    rw [hreg]
    exact filter_email_append db.users email _ rfl hfresh
  have hcomp : bcrypt.compare password (bcrypt.hash password 10 salt) = true := by
    simp [bcrypt.compare, bcrypt.hash]
  have hlog : (login env now (register db name email password salt).2.1 email password).1 =
      .success "Login successful" (Token.sign (nextUserId db) email secret now)
        ⟨nextUserId db, name, email, bcrypt.hash password 10 salt⟩ := by
    simp [login, he, hp, husers, hcomp, hsecret]
  exact ⟨by rw [hreg], by rw [hreg]; rfl, hlog, by rw [hlog]; rfl⟩

/-- C2 witness: register a fresh user against the sample store and log in. -/
theorem register_then_login_witness :
    ("Bob" : String) ≠ "" ∧ ("bob@x.com" : String) ≠ "" ∧ ("pw9" : String) ≠ "" ∧
    usersWhereEmail sampleDB "bob@x.com" = [] ∧
    jsTruthy (Env.mk (some "s3cret")).jwtSecret = some "s3cret" ∧
    ((register sampleDB "Bob" "bob@x.com" "pw9" "pepper").1 =
        .created "User registered successfully"
          ⟨nextUserId sampleDB, "Bob", "bob@x.com", bcrypt.hash "pw9" 10 "pepper"⟩ ∧
      (register sampleDB "Bob" "bob@x.com" "pw9" "pepper").1.status = 201 ∧
      (login ⟨some "s3cret"⟩ 0 (register sampleDB "Bob" "bob@x.com" "pw9" "pepper").2.1
          "bob@x.com" "pw9").1 =
        .success "Login successful" (Token.sign (nextUserId sampleDB) "bob@x.com" "s3cret" 0)
          ⟨nextUserId sampleDB, "Bob", "bob@x.com", bcrypt.hash "pw9" 10 "pepper"⟩ ∧
      (login ⟨some "s3cret"⟩ 0 (register sampleDB "Bob" "bob@x.com" "pw9" "pepper").2.1
          "bob@x.com" "pw9").1.status = 200) :=
  ⟨by decide, by decide, by decide, by decide, by decide,
    register_then_login ⟨some "s3cret"⟩ 0 sampleDB "Bob" "bob@x.com" "pw9" "pepper" "s3cret"
      (by decide) (by decide) (by decide) (by decide) (by decide)⟩

/-- C4: a `POST /register` whose email already exists in the users table
fails with 400 ("User already exists") and leaves the users table — and the
whole store — unchanged. -/
theorem register_duplicate_unchanged (db : DB) (name email password salt : String)
    (hn : name ≠ "") (he : email ≠ "") (hp : password ≠ "")
    (hdup : (usersWhereEmail db email).length > 0) :
    (register db name email password salt).1 = .error 400 "User already exists" ∧
    (register db name email password salt).1.status = 400 ∧
    (register db name email password salt).2.1 = db := by
  have hreg : register db name email password salt =
      (.error 400 "User already exists", db, [LogEntry.registerBody name email password]) := by
    simp [register, hn, he, hp, hdup]
  exact ⟨by rw [hreg], by rw [hreg]; rfl, by rw [hreg]⟩

/-- C4 witness: re-registering the sample user's email changes nothing. -/
theorem register_duplicate_unchanged_witness :
    ("Eve" : String) ≠ "" ∧ ("ann@x.com" : String) ≠ "" ∧ ("other" : String) ≠ "" ∧
    (usersWhereEmail sampleDB "ann@x.com").length > 0 ∧
    ((register sampleDB "Eve" "ann@x.com" "other" "s").1 =
        .error 400 "User already exists" ∧
      (register sampleDB "Eve" "ann@x.com" "other" "s").1.status = 400 ∧
      (register sampleDB "Eve" "ann@x.com" "other" "s").2.1 = sampleDB) :=
  ⟨by decide, by decide, by decide, by decide,
    register_duplicate_unchanged sampleDB "Eve" "ann@x.com" "other" "s"
      (by decide) (by decide) (by decide) (by decide)⟩

/-- C5: the login failure for an unknown email and the login failure for a
known email with a non-verifying password are the same response: status 401
with message "Invalid email or password", so the response does not reveal
whether the email exists. -/
theorem login_uniform_invalid_credentials (env : Env) (now : Nat)
    (db₁ : DB) (e₁ p₁ : String) (db₂ : DB) (e₂ p₂ : String) (u : User)
    (he₁ : e₁ ≠ "") (hp₁ : p₁ ≠ "") (he₂ : e₂ ≠ "") (hp₂ : p₂ ≠ "")
    (h₁ : usersWhereEmail db₁ e₁ = [])
    (h₂ : (usersWhereEmail db₂ e₂).head? = some u)
    (hc : bcrypt.compare p₂ u.password = false) :
    (login env now db₁ e₁ p₁).1 = .error 401 "Invalid email or password" ∧
    (login env now db₂ e₂ p₂).1 = .error 401 "Invalid email or password" ∧
    (login env now db₁ e₁ p₁).1 = (login env now db₂ e₂ p₂).1 ∧
    (login env now db₁ e₁ p₁).1.status = 401 := by
  have g₁ : (login env now db₁ e₁ p₁).1 = .error 401 "Invalid email or password" := by
    simp [login, he₁, hp₁, h₁]
  have g₂ : (login env now db₂ e₂ p₂).1 = .error 401 "Invalid email or password" := by
    simp [login, he₂, hp₂, h₂, hc]
  exact ⟨g₁, g₂, g₁.trans g₂.symm, by rw [g₁]; rfl⟩

/-- C5 witness: unknown email versus wrong password against the sample
store give the identical 401 response. -/
theorem login_uniform_invalid_credentials_witness :
    ("bob@x.com" : String) ≠ "" ∧ ("pw9" : String) ≠ "" ∧
    ("ann@x.com" : String) ≠ "" ∧ ("wrong" : String) ≠ "" ∧
    usersWhereEmail sampleDB "bob@x.com" = [] ∧
    (usersWhereEmail sampleDB "ann@x.com").head? = some ann ∧
    bcrypt.compare "wrong" ann.password = false ∧
    ((login ⟨some "s3cret"⟩ 0 sampleDB "bob@x.com" "pw9").1 =
        .error 401 "Invalid email or password" ∧
      (login ⟨some "s3cret"⟩ 0 sampleDB "ann@x.com" "wrong").1 =
        .error 401 "Invalid email or password" ∧
      (login ⟨some "s3cret"⟩ 0 sampleDB "bob@x.com" "pw9").1 =
        (login ⟨some "s3cret"⟩ 0 sampleDB "ann@x.com" "wrong").1 ∧
      (login ⟨some "s3cret"⟩ 0 sampleDB "bob@x.com" "pw9").1.status = 401) :=
  ⟨by decide, by decide, by decide, by decide, by decide, by decide, by decide,
    login_uniform_invalid_credentials ⟨some "s3cret"⟩ 0 sampleDB "bob@x.com" "pw9"
      sampleDB "ann@x.com" "wrong" ann
      (by decide) (by decide) (by decide) (by decide) (by decide) (by decide) (by decide)⟩

/-- C6 counterexample: the register handler logs the request body
(server.js line 78), so the plaintext password is logged by the service —
refuting the part of the claim that says the plaintext is never logged.
At the concrete input, the log emitted by the call contains an entry whose
password field is the submitted plaintext. -/
theorem register_logs_plaintext_password :
    ((register sampleDB "Bob" "bob@x.com" "pw9" "pepper").2.2).any
      (fun e => e.mentionsPlaintext "pw9") = true := by
  decide

/-- C6 amended: for every valid Register request, the row added to the users
table stores the bcrypt hash, work factor 10, of the submitted password — the
plaintext is not persisted — but the handler logs the full request body, so
the plaintext password is logged. -/
theorem register_hashes_password_but_logs_plaintext (db : DB)
    (name email password salt : String)
    (hn : name ≠ "") (he : email ≠ "") (hp : password ≠ "")
    (hfresh : usersWhereEmail db email = []) :
    (register db name email password salt).2.1.users =
      db.users ++ [⟨nextUserId db, name, email, bcrypt.hash password 10 salt⟩] ∧
    (bcrypt.hash password 10 salt).cost = 10 ∧
    LogEntry.registerBody name email password ∈ (register db name email password salt).2.2 := by
  have hreg : register db name email password salt =
      (.created "User registered successfully"
          ⟨nextUserId db, name, email, bcrypt.hash password 10 salt⟩,
        { db with users :=
            db.users ++ [⟨nextUserId db, name, email, bcrypt.hash password 10 salt⟩] },
        [LogEntry.registerBody name email password]) := by
    simp [register, hn, he, hp, hfresh]
  refine ⟨by rw [hreg], rfl, by rw [hreg]; simp⟩

/-- C6 amended witness: registering the fresh sample user. -/
theorem register_hashes_password_but_logs_plaintext_witness :
    ("Bob" : String) ≠ "" ∧ ("bob@x.com" : String) ≠ "" ∧ ("pw9" : String) ≠ "" ∧
    usersWhereEmail sampleDB "bob@x.com" = [] ∧
    ((register sampleDB "Bob" "bob@x.com" "pw9" "pepper").2.1.users =
        sampleDB.users ++
          [⟨nextUserId sampleDB, "Bob", "bob@x.com", bcrypt.hash "pw9" 10 "pepper"⟩] ∧
      (bcrypt.hash "pw9" 10 "pepper").cost = 10 ∧
      LogEntry.registerBody "Bob" "bob@x.com" "pw9" ∈
        (register sampleDB "Bob" "bob@x.com" "pw9" "pepper").2.2) :=
  ⟨by decide, by decide, by decide, by decide,
    register_hashes_password_but_logs_plaintext sampleDB "Bob" "bob@x.com" "pw9" "pepper"
      (by decide) (by decide) (by decide) (by decide)⟩

/-- C8: a token issued by login at time `iat` expires one hour later: the
Access Middleware accepts it, resolving the encoded identity, at any time
strictly before `iat + 3600` seconds, and rejects it as expired at any time
strictly after. -/
theorem token_accepted_before_expiry_rejected_after (id : Nat)
    (email secret : String) (iat t : Nat) :
    (t < iat + 3600 →
      verifyToken (some (Token.sign id email secret iat)) secret t = .ok id email) ∧
    (iat + 3600 < t →
      verifyToken (some (Token.sign id email secret iat)) secret t = .expiredToken) := by
  constructor
  · intro h
    have hnot : ¬ (iat + 3600 ≤ t) := by omega
    simp [verifyToken, Token.sign, hnot]
  · intro h
    have hle : iat + 3600 ≤ t := by omega
    simp [verifyToken, Token.sign, hle]

/-- C8 witness: a token signed at time 0 is accepted at time 10 and rejected
at time 4000. -/
theorem token_accepted_before_expiry_rejected_after_witness :
    verifyToken (some (Token.sign 7 "ann@x.com" "s3cret" 0)) "s3cret" 10 =
      .ok 7 "ann@x.com" ∧
    verifyToken (some (Token.sign 7 "ann@x.com" "s3cret" 0)) "s3cret" 4000 =
      .expiredToken :=
  ⟨(token_accepted_before_expiry_rejected_after 7 "ann@x.com" "s3cret" 0 10).1 (by decide),
    (token_accepted_before_expiry_rejected_after 7 "ann@x.com" "s3cret" 0 4000).2 (by decide)⟩

/-- C9: with the signing secret absent from the environment, a login with an
unknown email, or with a known email but a non-verifying password, still
fails with 401 "Invalid email or password" and not with the 500
misconfiguration error: the missing-secret check runs only after the
password verified. -/
theorem login_checks_credentials_before_secret (now : Nat) (db : DB)
    (email password : String)
    (he : email ≠ "") (hp : password ≠ "") :
    ((usersWhereEmail db email).head? = none →
      (login ⟨none⟩ now db email password).1 = .error 401 "Invalid email or password") ∧
    (∀ u, (usersWhereEmail db email).head? = some u →
      bcrypt.compare password u.password = false →
      (login ⟨none⟩ now db email password).1 = .error 401 "Invalid email or password") := by
  constructor
  · intro h
    simp [login, he, hp, h]
  · intro u hu hc
    simp [login, he, hp, hu, hc]

/-- C9 witness: with no secret configured, an unknown email and a wrong
password both still answer 401, not 500. -/
theorem login_checks_credentials_before_secret_witness :
    (login ⟨none⟩ 0 sampleDB "bob@x.com" "pw9").1 =
      .error 401 "Invalid email or password" ∧
    (login ⟨none⟩ 0 sampleDB "ann@x.com" "wrong").1 =
      .error 401 "Invalid email or password" :=
  ⟨(login_checks_credentials_before_secret 0 sampleDB "bob@x.com" "pw9"
      (by decide) (by decide)).1 (by decide),
    (login_checks_credentials_before_secret 0 sampleDB "ann@x.com" "wrong"
      (by decide) (by decide)).2 ann (by decide) (by decide)⟩

/-- C10: a successful login answers with the full stored users row — the
row's password column, i.e. the stored bcrypt hash, included — as the `user`
field of the response. -/
theorem login_success_returns_stored_row (env : Env) (now : Nat) (db : DB)
    (email password secret : String) (u : User)
    (he : email ≠ "") (hp : password ≠ "")
    (hu : (usersWhereEmail db email).head? = some u)
    (hc : bcrypt.compare password u.password = true)
    (hs : jsTruthy env.jwtSecret = some secret) :
    (login env now db email password).1 =
      .success "Login successful" (Token.sign u.id u.email secret now) u ∧
    (login env now db email password).1.status = 200 := by
  have hl : (login env now db email password).1 =
      .success "Login successful" (Token.sign u.id u.email secret now) u := by
    simp [login, he, hp, hu, hc, hs]
  exact ⟨hl, by rw [hl]; rfl⟩

/-- C10 witness: the sample user logs in and the response carries the stored
row including its hash field. -/
theorem login_success_returns_stored_row_witness :
    ("ann@x.com" : String) ≠ "" ∧ ("pw123" : String) ≠ "" ∧
    (usersWhereEmail sampleDB "ann@x.com").head? = some ann ∧
    bcrypt.compare "pw123" ann.password = true ∧
    jsTruthy (Env.mk (some "s3cret")).jwtSecret = some "s3cret" ∧
    ((login ⟨some "s3cret"⟩ 0 sampleDB "ann@x.com" "pw123").1 =
        .success "Login successful" (Token.sign ann.id ann.email "s3cret" 0) ann ∧
      (login ⟨some "s3cret"⟩ 0 sampleDB "ann@x.com" "pw123").1.status = 200) :=
  ⟨by decide, by decide, by decide, by decide, by decide,
    login_success_returns_stored_row ⟨some "s3cret"⟩ 0 sampleDB "ann@x.com" "pw123" "s3cret" ann
      (by decide) (by decide) (by decide) (by decide) (by decide)⟩

end CourseNest
